import Mathlib

/-!
Verification of the status-LED arbitration and override engine of the
openevseForKinetos-esp firmware (`src/LedManagerTask.h` / `src/LedManagerTask.cpp`).

The arbiter, the self-test sequence, the speed/brightness computations and the
`ColorOverride::isExpired` predicate are translated directly from the source.
The override-store operation bodies (`setColorOverride`, `clearColorOverride`,
`getOverrideIndex` and the resolution path) are declared in `LedManagerTask.h`
but their definitions are not part of the source tree; those are modelled from
the specification and are marked as such in their doc comments.
-/

namespace LedSpec

/-- The `LedState` enumeration of `LedManagerTask.h`, in declaration order. -/
inductive LedState where
  | Test_Red
  | Test_Green
  | Test_Blue
  | Off
  | Evse_State
  | WiFi_Access_Point_Waiting
  | WiFi_Access_Point_Connected
  | WiFi_Client_Connecting
  | WiFi_Client_Connected
deriving DecidableEq, Repr

/-- Numeric value of each enumerator (C++ enums number from 0 in order). -/
def ledStateCode : LedState → Nat
  | .Test_Red => 0
  | .Test_Green => 1
  | .Test_Blue => 2
  | .Off => 3
  | .Evse_State => 4
  | .WiFi_Access_Point_Waiting => 5
  | .WiFi_Access_Point_Connected => 6
  | .WiFi_Client_Connecting => 7
  | .WiFi_Client_Connected => 8

/-- Guard `state < LedState_Off` of the C++ sources: the state is one of the three
self-test states. -/
def isTestState (s : LedState) : Bool :=
  ledStateCode s < ledStateCode LedState.Off

/-- Translation of `LedManagerTask::getPriority` (LedManagerTask.cpp, lines 630-655).
`evseIsError` stands for `_evse->isError()`. -/
def getPriority (evseIsError : Bool) : LedState → Nat
  | .Off => 0
  | .WiFi_Client_Connected => 10
  | .Evse_State => if evseIsError then 1000 else 50
  | .WiFi_Access_Point_Waiting => 100
  | .WiFi_Access_Point_Connected => 100
  | .WiFi_Client_Connecting => 100
  | .Test_Red => 2000
  | .Test_Green => 2000
  | .Test_Blue => 2000

/-- The network state selected from the `(wifiClient, wifiConnected)` pair, as
in `LedManagerTask::setNewState` (LedManagerTask.cpp, lines 669-671). -/
def wifiStateOf (wifiClient wifiConnected : Bool) : LedState :=
  if wifiClient then
    (if wifiConnected then LedState.WiFi_Client_Connected else LedState.WiFi_Client_Connecting)
  else
    (if wifiConnected then LedState.WiFi_Access_Point_Connected else LedState.WiFi_Access_Point_Waiting)

/-- Translation of `LedManagerTask::setNewState` (LedManagerTask.cpp, lines 657-685), as the
pure function computing the next displayed state from the current state and
the collaborator signals. -/
def newLedState (state : LedState) (evseIsError wifiClient wifiConnected : Bool) : LedState :=
  let newState := if ledStateCode state < ledStateCode LedState.Off then state else LedState.Off
  let priority := getPriority evseIsError newState
  let evsePriority := getPriority evseIsError LedState.Evse_State
  let newState2 := if evsePriority > priority then LedState.Evse_State else newState
  let priority2 := if evsePriority > priority then evsePriority else priority
  let wifiState := wifiStateOf wifiClient wifiConnected
  let wifiPriority := getPriority evseIsError wifiState
  if wifiPriority > priority2 then wifiState else newState2

/-- First-wins maximum over a candidate list: a later candidate replaces the
current best only with a strictly greater priority. -/
def pickBest : List (LedState × Nat) → LedState × Nat → LedState × Nat
  | [], best => best
  | x :: xs, best => pickBest xs (if x.2 > best.2 then x else best)

/-- The arbitration algorithm exactly as the specification words it: the
candidates are the current self-test state at priority 2000 (only while a
self-test is in progress), `ChargeStatus` at 1000 on fault else 50, the
network state at 100 for the transitional phases and 10 for client-connected,
and `Off` at 0; the strictly greatest priority wins and ties keep the earlier
source in the order self-test, charge, network. -/
def specSelect (cur : LedState) (fault wifiClient wifiConnected : Bool) : LedState :=
  let chargePriority : Nat := if fault then 1000 else 50
  let net := wifiStateOf wifiClient wifiConnected
  let netPriority : Nat := if net = LedState.WiFi_Client_Connected then 10 else 100
  let cands : List (LedState × Nat) :=
    (if isTestState cur then [(cur, 2000)] else []) ++
      [(LedState.Evse_State, chargePriority), (net, netPriority), (LedState.Off, 0)]
  match cands with
  | [] => LedState.Off
  | x :: xs => (pickBest xs x).1

/-- C2: For every combination of current LedState, EVSE fault flag, and
network phase, `setNewState` selects as the next displayed state the candidate
with the strictly greatest priority among: the current self-test state at
priority 2000, ChargeStatus at 1000 if the EVSE reports a fault and 50
otherwise, the network state at 100 for AP-waiting/AP-connected/
client-connecting and 10 for client-connected, and Off at 0; when priorities
are equal the earlier source in the fixed order self-test > charge > network
is kept. -/
theorem setNewState_matches_priority_table :
    ∀ (cur : LedState) (fault wifiClient wifiConnected : Bool),
      newLedState cur fault wifiClient wifiConnected =
        specSelect cur fault wifiClient wifiConnected := by
  intro cur fault wifiClient wifiConnected
  cases cur <;> cases fault <;> cases wifiClient <;> cases wifiConnected <;> rfl

/-- A `ColorOverride` record (LedManagerTask.h, lines 47-60).  `brightness = 0`
means "use the global brightness", `timeout_ms = 0` means "no timeout";
`set_time_ms` is the value of `millis()` when the override was set. -/
structure ColorOverride where
  active : Bool
  color : Nat
  brightness : Nat
  timeout_ms : Nat
  set_time_ms : Nat
deriving DecidableEq, Repr

/-- The 8 override slots of `_overrides[8]` (LedManagerTask.h, line 63), in
their documented order: off, error, ready, waiting, charging, custom,
default, all. -/
inductive OverrideCategory where
  | off
  | error
  | ready
  | waiting
  | charging
  | custom
  | defaultCat
  | allCat
deriving DecidableEq, Repr

def OverrideStore : Type := OverrideCategory → ColorOverride

/-- The fields of the `LedManagerTask` object that the engine mutates. -/
structure LedManagerState where
  state : LedState
  wifiClient : Bool
  wifiConnected : Bool
  flashState : Bool
  brightness : Nat
  overrides : OverrideStore

/-- The collaborator values read by the task loop (`EvseManager` interface). -/
structure EvseSnapshot where
  isError : Bool
  isCharging : Bool
  chargeCurrent : ℚ
  maxHardwareCurrent : ℚ
  stateColour : Nat

/-- Operation `LedManagerTask::setNewState` acting on the task object: only the `state`
field changes. -/
def setNewState (ev : EvseSnapshot) (s : LedManagerState) : LedManagerState :=
  { s with state := newLedState s.state ev.isError s.wifiClient s.wifiConnected }

/-- Constant `TEST_LED_TIME` (LedManagerTask.cpp, line 72). -/
def TEST_LED_TIME : Nat := 500

/-- Constant `CONNECTING_FLASH_TIME` (LedManagerTask.cpp, line 62). -/
def CONNECTING_FLASH_TIME : Nat := 450

/-- Constant `CONNECTED_FLASH_TIME` (LedManagerTask.cpp, line 63). -/
def CONNECTED_FLASH_TIME : Nat := 250

/-- Translation of `LedManagerTask::loop` (LedManagerTask.cpp, lines 259-354, WS2812FX
branch), restricted to the state update and the returned delay.  `triggered`
is `onStateChange.IsTriggered()`; the returned `Option Nat` is the next wake
delay, `none` standing for `MicroTask.Infinate`. -/
def loopStep (triggered : Bool) (ev : EvseSnapshot) (s : LedManagerState) :
    LedManagerState × Option Nat :=
  let s := if triggered then setNewState ev s else s
  match s.state with
  | .Off => (s, none)
  | .Test_Red => ({ s with state := LedState.Test_Green }, some TEST_LED_TIME)
  | .Test_Green => ({ s with state := LedState.Test_Blue }, some TEST_LED_TIME)
  | .Test_Blue => (setNewState ev { s with state := LedState.Off }, some TEST_LED_TIME)
  | .Evse_State => (s, none)
  | .WiFi_Access_Point_Waiting => (s, some CONNECTING_FLASH_TIME)
  | .WiFi_Access_Point_Connected =>
      ({ s with flashState := !s.flashState }, some CONNECTED_FLASH_TIME)
  | .WiFi_Client_Connecting =>
      ({ s with flashState := !s.flashState }, some CONNECTING_FLASH_TIME)
  | .WiFi_Client_Connected => (s, none)

/-- Translation of `LedManagerTask::test` (LedManagerTask.cpp, lines 693-697): only an
explicit test request enters the self-test sequence. -/
def testRequest (s : LedManagerState) : LedManagerState :=
  { s with state := LedState.Test_Red }

/-- Translation of `LedManagerTask::clear` (LedManagerTask.cpp, lines 687-691). -/
def clearRequest (s : LedManagerState) : LedManagerState :=
  { s with state := LedState.Off }

/-- The constructor `LedManagerTask::LedManagerTask` (LedManagerTask.cpp,
lines 190-200): the power-on state is `LedState_Test_Red`; the default
brightness constant comes from the build configuration and is a parameter
here. -/
def initState (defaultBrightness : Nat) : LedManagerState :=
  { state := LedState.Test_Red
    wifiClient := false
    wifiConnected := false
    flashState := false
    brightness := defaultBrightness
    overrides := fun _ => ⟨false, 0, 0, 0, 0⟩ }

/-- Arbitration keeps a self-test state: nothing outranks priority 2000. -/
theorem newLedState_of_test (t : LedState) (f wc wconn : Bool)
    (h : isTestState t = true) : newLedState t f wc wconn = t := by
  cases t <;> simp [isTestState, ledStateCode] at h <;>
    cases f <;> cases wc <;> cases wconn <;> rfl

/-- C3: While a self-test sequence is in progress, no charge or network
signal can change the displayed state until the sequence reaches Off; each
task-loop invocation advances the sequence exactly one step in the fixed
order Red then Green then Blue then Off, with a fixed inter-step delay. -/
theorem selfTest_runs_to_completion :
    (∀ (t : LedState) (f wc wconn : Bool), isTestState t = true →
        newLedState t f wc wconn = t) ∧
    (∀ (triggered : Bool) (ev : EvseSnapshot) (s : LedManagerState),
        s.state = LedState.Test_Red →
        loopStep triggered ev s = ({ s with state := LedState.Test_Green }, some TEST_LED_TIME)) ∧
    (∀ (triggered : Bool) (ev : EvseSnapshot) (s : LedManagerState),
        s.state = LedState.Test_Green →
        loopStep triggered ev s = ({ s with state := LedState.Test_Blue }, some TEST_LED_TIME)) ∧
    (∀ (triggered : Bool) (ev : EvseSnapshot) (s : LedManagerState),
        s.state = LedState.Test_Blue →
        (loopStep triggered ev s).1.state =
            newLedState LedState.Off ev.isError s.wifiClient s.wifiConnected ∧
          (loopStep triggered ev s).2 = some TEST_LED_TIME) := by
  refine ⟨newLedState_of_test, ?_, ?_, ?_⟩ <;>
    intro triggered ev s h <;>
      cases triggered <;>
        simp [loopStep, setNewState, h, newLedState_of_test, isTestState, ledStateCode]

/-- Witness for C3 at a concrete state and signal set. -/
theorem selfTest_runs_to_completion_witness :
    loopStep true ⟨true, false, 0, 0, 0⟩ (initState 0) =
      ({ initState 0 with state := LedState.Test_Green }, some TEST_LED_TIME) :=
  selfTest_runs_to_completion.2.1 true ⟨true, false, 0, 0, 0⟩ (initState 0) rfl

/-- C10: Arbitration never starts a self-test spontaneously: from a state
that is not a self-test state, the selected next state is one of Off,
ChargeStatus, or the network state determined by the
`(wifiClient, wifiConnected)` pair, never a self-test state; self-test
states are entered only by an explicit `test()` call or the initial
power-on state. -/
theorem arbitration_never_starts_selfTest :
    (∀ (cur : LedState) (f wc wconn : Bool), isTestState cur = false →
        (newLedState cur f wc wconn = LedState.Off ∨
          newLedState cur f wc wconn = LedState.Evse_State ∨
          newLedState cur f wc wconn = wifiStateOf wc wconn) ∧
          isTestState (newLedState cur f wc wconn) = false) ∧
    (∀ s : LedManagerState, (testRequest s).state = LedState.Test_Red) ∧
    (∀ b : Nat, (initState b).state = LedState.Test_Red) := by
  refine ⟨?_, fun _ => rfl, fun _ => rfl⟩
  intro cur f wc wconn h
  cases cur <;> simp [isTestState, ledStateCode] at h <;>
    cases f <;> cases wc <;> cases wconn <;> decide

/-- Witness for C10 at a concrete non-test state. -/
theorem arbitration_never_starts_selfTest_witness :
    (newLedState LedState.Off false false false = LedState.Off ∨
      newLedState LedState.Off false false false = LedState.Evse_State ∨
      newLedState LedState.Off false false false = wifiStateOf false false) ∧
      isTestState (newLedState LedState.Off false false false) = false :=
  arbitration_never_starts_selfTest.1 LedState.Off false false false rfl

/-- Constant `DEFAULT_FX_SPEED` (LedManagerTask.cpp, line 67). -/
def DEFAULT_FX_SPEED : ℚ := 1000

/-- Division made explicitly fallible: `none` when the denominator is zero. -/
def safeDivQ (a b : ℚ) : Option ℚ :=
  if b = 0 then none else some (a / b)

/-- The ChargeStatus animation-speed computation of `LedManagerTask::loop`
(LedManagerTask.cpp, lines 306-312).  The collaborator currents are numbers
per the interface contract, modelled as rationals. -/
def fxSpeed (ev : EvseSnapshot) : ℚ :=
  if ev.maxHardwareCurrent = 0 then DEFAULT_FX_SPEED
  else 2000 - (ev.chargeCurrent / ev.maxHardwareCurrent) * 1000

/-- The same computation with the division partialized: evaluating the
division at a zero denominator would produce `none`. -/
def fxSpeedChecked (ev : EvseSnapshot) : Option ℚ :=
  if ev.maxHardwareCurrent = 0 then some DEFAULT_FX_SPEED
  else (safeDivQ ev.chargeCurrent ev.maxHardwareCurrent).map (fun r => 2000 - r * 1000)

/-- C8: When `maxHardwareCurrent()` is 0 the ChargeStatus animation speed
equals the default speed constant and the division is never evaluated;
otherwise the speed equals 2000 minus (chargeCurrent/maxHardwareCurrent)
times 1000, so the speed computation never divides by zero. -/
theorem fxSpeed_never_divides_by_zero :
    ∀ ev : EvseSnapshot,
      fxSpeedChecked ev = some (fxSpeed ev) ∧
      (ev.maxHardwareCurrent = 0 → fxSpeed ev = DEFAULT_FX_SPEED) ∧
      (ev.maxHardwareCurrent ≠ 0 →
        fxSpeed ev = 2000 - (ev.chargeCurrent / ev.maxHardwareCurrent) * 1000) := by
  intro ev
  by_cases h : ev.maxHardwareCurrent = 0 <;>
    simp [fxSpeed, fxSpeedChecked, safeDivQ, h]

/-- Witness for C8: a zero and a nonzero hardware maximum. -/
theorem fxSpeed_never_divides_by_zero_witness :
    fxSpeed ⟨false, true, 16, 0, 0⟩ = DEFAULT_FX_SPEED ∧
      fxSpeed ⟨false, true, 16, 32, 0⟩ = 1500 := by
  constructor
  · exact (fxSpeed_never_divides_by_zero ⟨false, true, 16, 0, 0⟩).2.1 rfl
  · have h := (fxSpeed_never_divides_by_zero ⟨false, true, 16, 32, 0⟩).2.2 (by norm_num)
    rw [h]
    norm_num

/-- Translation of `LedManagerTask::setBrightness` (LedManagerTask.cpp, lines 756-782):
`this->brightness = brightness + 1` with 8-bit rollover. -/
def setBrightness (v : Nat) (s : LedManagerState) : LedManagerState :=
  { s with brightness := (v + 1) % 256 }

/-- The brightness the loop applies for the EVSE/network states
(LedManagerTask.cpp, lines 313-318): `255` when the stored field is 0, else
the stored field minus one, read from the field at each invocation. -/
def appliedFxBrightness (stored : Nat) : Nat :=
  if stored = 0 then 255 else stored - 1

/-- C9: For every value v in 0-255, after `setBrightness(v)` the next
resolution for a non-overridden category uses brightness v: the process-wide
brightness is read at resolution time rather than cached, so brightness
changes take effect without any new `setOverride` call. -/
theorem setBrightness_applied_exactly :
    ∀ (s : LedManagerState) (v : Nat), v ≤ 255 →
      appliedFxBrightness ((setBrightness v s).brightness) = v := by
  intro s v h
  simp only [setBrightness, appliedFxBrightness]
  split <;> omega

/-- Witness for C9 at v = 0, 128 and 255. -/
theorem setBrightness_applied_exactly_witness :
    appliedFxBrightness ((setBrightness 0 (initState 0)).brightness) = 0 ∧
      appliedFxBrightness ((setBrightness 128 (initState 0)).brightness) = 128 ∧
      appliedFxBrightness ((setBrightness 255 (initState 0)).brightness) = 255 :=
  ⟨setBrightness_applied_exactly (initState 0) 0 (by decide),
    setBrightness_applied_exactly (initState 0) 128 (by decide),
    setBrightness_applied_exactly (initState 0) 255 (by decide)⟩

/-- The modulus `2^32`: the modulus of `unsigned long` (`millis()`), 32-bit on this
target. -/
def U32 : Nat := 4294967296

/-- Unsigned 32-bit subtraction, as `millis() - set_time_ms` computes it. -/
def u32sub (a b : Nat) : Nat :=
  (a % U32 + U32 - b % U32) % U32

/-- Translation of `ColorOverride::isExpired` (LedManagerTask.h, lines 56-59), with
`millisNow` the current value of the 32-bit `millis()` counter. -/
def ColorOverride.isExpired (o : ColorOverride) (millisNow : Nat) : Bool :=
  if !o.active || o.timeout_ms == 0 then false
  else decide (u32sub millisNow o.set_time_ms ≥ o.timeout_ms)

/-- Predicate `isExpired` evaluated at an absolute time `now` in milliseconds since
boot: `millis()` returns `now` reduced modulo 2^32. -/
def ColorOverride.isExpiredAt (o : ColorOverride) (now : Nat) : Bool :=
  o.isExpired (now % U32)

/-- C4 counterexample: a record set at time 0 with a 1000 ms timeout is
expired at `now = 1000` but no longer expired at `now = 2^32`, although it is
active, its timeout is nonzero and `now - createdAt ≥ timeoutDuration`: the
expiry predicate is not monotone once the 32-bit millisecond counter wraps. -/
theorem isExpired_not_monotone :
    (ColorOverride.mk true 0 0 1000 0).isExpiredAt 1000 = true ∧
      4294967296 - 0 ≥ 1000 ∧
      (ColorOverride.mk true 0 0 1000 0).isExpiredAt 4294967296 = false := by
  decide

/-- C4 amended: an override record is expired exactly when it is
active, has a nonzero `timeout_ms`, and the elapsed time reduced modulo 2^32
is at least `timeout_ms`; a record that is inactive or has `timeout_ms = 0`
is never expired; and the expiry predicate, once true, stays true for as
long as the elapsed time since the set stays below 2^32 ms (one wrap of the
32-bit millisecond counter). -/
theorem isExpired_characterisation :
    ∀ o : ColorOverride,
      ((o.active = false ∨ o.timeout_ms = 0) → ∀ n, o.isExpiredAt n = false) ∧
      (∀ n, o.set_time_ms ≤ n → o.set_time_ms < U32 →
        (o.isExpiredAt n = true ↔
          (o.active = true ∧ o.timeout_ms ≠ 0 ∧
            (n - o.set_time_ms) % U32 ≥ o.timeout_ms))) ∧
      (∀ n m, o.set_time_ms ≤ n → n ≤ m → m - o.set_time_ms < U32 →
        o.set_time_ms < U32 → o.isExpiredAt n = true → o.isExpiredAt m = true) := by
  intro o
  have key : ∀ n, o.set_time_ms ≤ n → o.set_time_ms < U32 →
      u32sub (n % U32) o.set_time_ms = (n - o.set_time_ms) % U32 := by
    intro n h1 h2
    simp only [u32sub, U32] at *
    omega
  have core : ∀ n, o.set_time_ms ≤ n → o.set_time_ms < U32 →
      (o.isExpiredAt n = true ↔
        (o.active = true ∧ o.timeout_ms ≠ 0 ∧
          (n - o.set_time_ms) % U32 ≥ o.timeout_ms)) := by
    intro n h1 h2
    simp only [ColorOverride.isExpiredAt, ColorOverride.isExpired, key n h1 h2]
    cases ha : o.active
    · simp [ha]
    · cases ht : o.timeout_ms == 0
      · have ht' : o.timeout_ms ≠ 0 := by simpa using ht
        simp [ha, ht, ht']
      · have ht' : o.timeout_ms = 0 := by simpa using ht
        simp [ha, ht']
  refine ⟨?_, core, ?_⟩
  · rintro (h | h) n <;>
      simp [ColorOverride.isExpiredAt, ColorOverride.isExpired, h]
  · intro n m h1 h2 h3 h4 h5
    obtain ⟨ha, ht, hge⟩ := (core n h1 h4).mp h5
    refine (core m (le_trans h1 h2) h4).mpr ⟨ha, ht, ?_⟩
    have hn : (n - o.set_time_ms) % U32 = n - o.set_time_ms :=
      Nat.mod_eq_of_lt (by omega)
    have hm : (m - o.set_time_ms) % U32 = m - o.set_time_ms :=
      Nat.mod_eq_of_lt (by omega)
    rw [hn] at hge
    rw [hm]
    omega

/-- Witness for C4 (amended): a 1-hour override is not expired right after
being set, is expired once 3600000 ms have elapsed, and an inactive record
never expires. -/
theorem isExpired_characterisation_witness :
    (ColorOverride.mk false 0 0 5 0).isExpiredAt 999999999 = false ∧
      (ColorOverride.mk true 0 0 3600000 0).isExpiredAt 0 = false ∧
      (ColorOverride.mk true 0 0 3600000 0).isExpiredAt 3600000 = true := by
  refine ⟨(isExpired_characterisation _).1 (Or.inl rfl) 999999999, ?_, ?_⟩
  · have h := ((isExpired_characterisation (ColorOverride.mk true 0 0 3600000 0)).2.1
      0 (by decide) (by decide))
    rcases Bool.eq_false_or_eq_true
        ((ColorOverride.mk true 0 0 3600000 0).isExpiredAt 0) with hb | hb
    · exact absurd (h.mp hb).2.2 (by decide)
    · exact hb
  · exact ((isExpired_characterisation (ColorOverride.mk true 0 0 3600000 0)).2.1
      3600000 (by decide) (by decide)).mpr ⟨rfl, by decide, by decide⟩

/-- The wire name of each override slot, as documented for `_overrides[8]`
(LedManagerTask.h, line 63) and the web/MQTT API. -/
def catName : OverrideCategory → String
  | .off => "off"
  | .error => "error"
  | .ready => "ready"
  | .waiting => "waiting"
  | .charging => "charging"
  | .custom => "custom"
  | .defaultCat => "default"
  | .allCat => "all"

/-- The 8 fixed category names accepted by `setOverride`. -/
def validStateNames : List String :=
  ["off", "error", "ready", "waiting", "charging", "custom", "default", "all"]

/-- Modelled from the spec: `getOverrideIndex` is declared in
LedManagerTask.h (line 66) but its body is not in the source tree; the spec
fixes the 8 accepted names, every other name being rejected. -/
def getOverrideIndex (stateStr : String) : Option OverrideCategory :=
  if stateStr = "off" then some OverrideCategory.off
  else if stateStr = "error" then some OverrideCategory.error
  else if stateStr = "ready" then some OverrideCategory.ready
  else if stateStr = "waiting" then some OverrideCategory.waiting
  else if stateStr = "charging" then some OverrideCategory.charging
  else if stateStr = "custom" then some OverrideCategory.custom
  else if stateStr = "default" then some OverrideCategory.defaultCat
  else if stateStr = "all" then some OverrideCategory.allCat
  else none

/-- Replace one slot of the override store. -/
def setSlot (st : OverrideStore) (c : OverrideCategory) (r : ColorOverride) :
    OverrideStore :=
  fun x => if x = c then r else st x

/-- Modelled from the spec: `setColorOverride` is declared in
LedManagerTask.h (line 121) but its body is not in the source tree.  Per the
spec it fails (returns false, the store untouched) for a name outside the 8
fixed ones, and otherwise replaces the named slot wholesale, marking it
active and stamping the creation time; `timeout_hours` is converted to
milliseconds, 0 meaning "never auto-expire". -/
def setColorOverride (stateStr : String) (color brightnessArg timeoutHours now : Nat)
    (st : OverrideStore) : Bool × OverrideStore :=
  match getOverrideIndex stateStr with
  | none => (false, st)
  | some c =>
      (true, setSlot st c
        ⟨true, color, brightnessArg, timeoutHours * 3600000, now % U32⟩)

/-- Modelled from the spec: `clearColorOverride` is declared in
LedManagerTask.h (line 122) but its body is not in the source tree.  Per the
spec it flips the active flag of the named slot, or of all 8 slots when no
category is given. -/
def clearColorOverride (c? : Option OverrideCategory) (st : OverrideStore) :
    OverrideStore :=
  match c? with
  | some c => setSlot st c { st c with active := false }
  | none => fun x => { st x with active := false }

/-- Operation `clearColorOverride` acting on the whole task object: only the override
slots are touched. -/
def clearOverrideRequest (c? : Option OverrideCategory) (s : LedManagerState) :
    LedManagerState :=
  { s with overrides := clearColorOverride c? s.overrides }

/-- The EVSE conditions the spec's translation table starts from. -/
inductive EvseCondition where
  | ready
  | waiting
  | charging
  | error
  | custom
  | defaultCond
deriving DecidableEq, Repr

/-- Modelled from the spec: the explicit, total translation from EVSE
condition to override category (spec §4.2), independent of the ColorClass
the condition renders as. -/
def conditionCategory : EvseCondition → OverrideCategory
  | .ready => .ready
  | .waiting => .waiting
  | .charging => .charging
  | .error => .error
  | .custom => .custom
  | .defaultCond => .defaultCat

/-- Modelled from the spec: the override category a displayed LogicalState is
resolved against — the `off` slot for the Off state, otherwise the category
of the EVSE condition currently reported (every non-off state displays the
EVSE colour on the status pixels). -/
def translateCategory (ls : LedState) (cond : EvseCondition) : OverrideCategory :=
  if ls = LedState.Off then OverrideCategory.off else conditionCategory cond

/-- Modelled from the spec: colour resolution (spec §4.2): the `all` slot
when active, else the category slot for this LogicalState when active, else
the normally computed colour. -/
def resolveColor (st : OverrideStore) (ls : LedState) (cond : EvseCondition)
    (defaultColor : Nat) : Nat :=
  if (st OverrideCategory.allCat).active then (st OverrideCategory.allCat).color
  else
    let c := translateCategory ls cond
    if (st c).active then (st c).color else defaultColor

/-- The effective brightness of one slot: 0 in the record means "use the
process-wide brightness at resolution time" (LedManagerTask.h, line 50). -/
def slotBrightness (o : ColorOverride) (global : Nat) : Nat :=
  if o.brightness = 0 then global else o.brightness

/-- Modelled from the spec: brightness resolution (spec §4.2), same cascade
as `resolveColor`. -/
def resolveBrightness (st : OverrideStore) (ls : LedState) (cond : EvseCondition)
    (global : Nat) : Nat :=
  if (st OverrideCategory.allCat).active then
    slotBrightness (st OverrideCategory.allCat) global
  else
    let c := translateCategory ls cond
    if (st c).active then slotBrightness (st c) global else global

/-- Each category's name resolves back to that category. -/
theorem getOverrideIndex_catName (c : OverrideCategory) :
    getOverrideIndex (catName c) = some c := by
  cases c <;> rfl

/-- C1: For every one of the 8 override categories, immediately after a
successful `setOverride(category, color, brightness)` and with the Arbiter
displaying the matching LogicalState — in particular an override set for
category `charging` while the charge-state collaborator reports charging —
`resolveColor` returns the override's color and `resolveBrightness` the
override's brightness, not the default computed values. -/
theorem setOverride_then_resolve :
    ∀ (c : OverrideCategory) (col b hrs now defCol g : Nat) (st st' : OverrideStore)
      (ls : LedState) (cond : EvseCondition),
      translateCategory ls cond = c →
      (c = OverrideCategory.allCat ∨ (st OverrideCategory.allCat).active = false) →
      b ≠ 0 →
      setColorOverride (catName c) col b hrs now st = (true, st') →
      resolveColor st' ls cond defCol = col ∧
        resolveBrightness st' ls cond g = b := by
  intro c col b hrs now defCol g st st' ls cond htr hall hb hset
  have hst' : st' = setSlot st c ⟨true, col, b, hrs * 3600000, now % U32⟩ := by
    simp only [setColorOverride, getOverrideIndex_catName] at hset
    exact (congrArg Prod.snd hset).symm
  subst hst'
  by_cases hc : c = OverrideCategory.allCat
  · subst hc
    simp [resolveColor, resolveBrightness, setSlot, slotBrightness, hb]
  · have hallf : (st OverrideCategory.allCat).active = false := by
      rcases hall with h | h
      · exact absurd h hc
      · exact h
    simp [resolveColor, resolveBrightness, setSlot, slotBrightness, htr, hc,
      Ne.symm hc, hallf, hb]

/-- Witness for C1: category `charging`, the collaborator reporting charging,
the display on `ChargeStatus`. -/
theorem setOverride_then_resolve_witness :
    resolveColor
        (setColorOverride "charging" 8388736 200 2 12345
          (initState 0).overrides).2
        LedState.Evse_State EvseCondition.charging 5592405 = 8388736 ∧
      resolveBrightness
        (setColorOverride "charging" 8388736 200 2 12345
          (initState 0).overrides).2
        LedState.Evse_State EvseCondition.charging 90 = 200 :=
  setOverride_then_resolve OverrideCategory.charging 8388736 200 2 12345 5592405 90
    (initState 0).overrides _ LedState.Evse_State EvseCondition.charging rfl
    (Or.inr rfl) (by decide) rfl

/-- C5: the call `setOverride` fails with `InvalidCategory` for every
`categoryName` outside the 8 fixed names and on that failure leaves all 8
override records unchanged; for every one of the 8 valid names it always
succeeds and replaces that slot wholesale. -/
theorem setOverride_invalidCategory :
    ∀ (name : String) (col b hrs now : Nat) (st : OverrideStore),
      ((getOverrideIndex name).isSome ↔ name ∈ validStateNames) ∧
      (getOverrideIndex name = none →
        setColorOverride name col b hrs now st = (false, st)) ∧
      (∀ c, getOverrideIndex name = some c →
        setColorOverride name col b hrs now st =
          (true, setSlot st c ⟨true, col, b, hrs * 3600000, now % U32⟩)) := by
  intro name col b hrs now st
  refine ⟨?_, ?_, ?_⟩
  · simp only [getOverrideIndex, validStateNames, List.mem_cons,
      List.not_mem_nil, or_false]
    split
    · simp_all
    · split
      · simp_all
      · split
        · simp_all
        · split
          · simp_all
          · split
            · simp_all
            · split
              · simp_all
              · split
                · simp_all
                · split <;> simp_all
  · intro h
    simp [setColorOverride, h]
  · intro c h
    simp [setColorOverride, h]

/-- Witness for C5: the invalid name "bogus" is rejected with the store
unchanged, and the valid name "charging" replaces exactly that slot. -/
theorem setOverride_invalidCategory_witness :
    setColorOverride "bogus" 1 2 3 4 (initState 0).overrides =
        (false, (initState 0).overrides) ∧
      setColorOverride "charging" 1 2 3 4 (initState 0).overrides =
        (true, setSlot (initState 0).overrides OverrideCategory.charging
          ⟨true, 1, 2, 3 * 3600000, 4 % U32⟩) :=
  ⟨(setOverride_invalidCategory "bogus" 1 2 3 4 (initState 0).overrides).2.1 rfl,
    (setOverride_invalidCategory "charging" 1 2 3 4 (initState 0).overrides).2.2
      OverrideCategory.charging rfl⟩

/-- C6: For every LogicalState, including ChargeStatus while charging or
while faulted, when the `all` override slot is active, `resolveColor` and
`resolveBrightness` return the `all` slot's values, even when the
category-specific slot matching that LogicalState is also active. -/
theorem allOverride_wins :
    ∀ (st : OverrideStore) (ls : LedState) (cond : EvseCondition)
      (defCol g : Nat),
      (st OverrideCategory.allCat).active = true →
      resolveColor st ls cond defCol = (st OverrideCategory.allCat).color ∧
        resolveBrightness st ls cond g =
          slotBrightness (st OverrideCategory.allCat) g := by
  intro st ls cond defCol g h
  simp [resolveColor, resolveBrightness, h]

/-- Witness for C6: both the `all` slot and the `charging` slot active while
the collaborator reports charging — the `all` slot wins. -/
theorem allOverride_wins_witness :
    resolveColor
        (setSlot
          (setSlot (initState 0).overrides OverrideCategory.charging
            ⟨true, 222, 7, 0, 0⟩)
          OverrideCategory.allCat ⟨true, 111, 5, 0, 0⟩)
        LedState.Evse_State EvseCondition.charging 0 = 111 := by
  have h := (allOverride_wins
    (setSlot
      (setSlot (initState 0).overrides OverrideCategory.charging
        ⟨true, 222, 7, 0, 0⟩)
      OverrideCategory.allCat ⟨true, 111, 5, 0, 0⟩)
    LedState.Evse_State EvseCondition.charging 0 0 (by decide)).1
  rw [h]
  decide

/-- C7: the call `clearOverride` with no argument deactivates all 8 override slots
in one call; `clearOverride(category)` for a valid category deactivates only
that slot and leaves the other 7 records (and all other engine state)
unchanged; clearing an already-inactive slot is a no-op, not an error. -/
theorem clearOverride_effects :
    ∀ (s : LedManagerState) (c : OverrideCategory),
      (∀ x, ((clearOverrideRequest none s).overrides x).active = false) ∧
      (((clearOverrideRequest (some c) s).overrides c).active = false) ∧
      (∀ x, x ≠ c →
        (clearOverrideRequest (some c) s).overrides x = s.overrides x) ∧
      ((clearOverrideRequest (some c) s).state = s.state ∧
        (clearOverrideRequest (some c) s).brightness = s.brightness ∧
        (clearOverrideRequest (some c) s).wifiClient = s.wifiClient ∧
        (clearOverrideRequest (some c) s).wifiConnected = s.wifiConnected ∧
        (clearOverrideRequest (some c) s).flashState = s.flashState) ∧
      ((s.overrides c).active = false → clearOverrideRequest (some c) s = s) := by
  intro s c
  refine ⟨?_, ?_, ?_, ⟨rfl, rfl, rfl, rfl, rfl⟩, ?_⟩
  · intro x
    simp [clearOverrideRequest, clearColorOverride]
  · simp [clearOverrideRequest, clearColorOverride, setSlot]
  · intro x hx
    simp [clearOverrideRequest, clearColorOverride, setSlot, hx]
  · intro h
    have hrec : { s.overrides c with active := false } = s.overrides c := by
      cases hoc : s.overrides c
      rw [hoc] at h
      simp only at h
      simp [h]
    have hover : clearColorOverride (some c) s.overrides = s.overrides := by
      funext x
      simp only [clearColorOverride, setSlot, hrec]
      split <;> simp_all
    simp [clearOverrideRequest, hover]

/-- Witness for C7's no-op part at a concrete fresh state. -/
theorem clearOverride_effects_witness :
    clearOverrideRequest (some OverrideCategory.charging) (initState 7) =
      initState 7 :=
  (clearOverride_effects (initState 7) OverrideCategory.charging).2.2.2.2 rfl

end LedSpec
